import Mathlib

/-!
Verification development for the CutnPaste backend (`src/server.py`).

The authentication core is shallowly embedded: the MongoDB collections
`users` and `user_sessions` become lists of records, timestamps become
natural numbers (seconds), bcrypt hashing and JWT signing are modelled
symbolically (a hash remembers the plaintext it was derived from and
equality of the secret plays the role of a valid HMAC signature), and
each FastAPI handler becomes a pure function from a request plus the
current store to a result plus the new store.  Randomness
(`secrets.choice`, `secrets.token_urlsafe`) is passed in as an explicit
choice stream / fresh-suffix argument.
-/

/-- Outcome of a handler: either a success payload or an HTTP error
(`HTTPException(status_code, detail)`). -/
inductive ApiResult (α : Type) where
  | ok (value : α)
  | error (status : Nat) (detail : String)
deriving DecidableEq, Repr

/-- Symbolic bcrypt digest: `hash_password` (server.py:96) is modelled as
remembering the plaintext; the salt plays no role in the claims. -/
structure BcryptHash where
  plain : String
deriving DecidableEq, Repr

/-- `hash_password` (server.py:96). -/
def hash_password (password : String) : BcryptHash := ⟨password⟩

/-- `verify_password` (server.py:99): `bcrypt.checkpw` succeeds exactly when
the plaintext matches the one the digest was derived from. -/
def verify_password (password : String) (hashed : BcryptHash) : Bool :=
  password == hashed.plain

/-- Payload of a JWT issued by `create_jwt_token` (server.py:102). -/
structure JwtPayload where
  userId : String
  exp : Nat
deriving DecidableEq, Repr

/-- A credential string as seen by `get_current_user`: either a JWT produced
by `jwt.encode` under some secret (the secret standing for the HMAC
signature), or an opaque string (e.g. an Emergent Auth session token).
An opaque string is never a structurally valid JWT. -/
inductive Token where
  | jwt (payload : JwtPayload) (secret : String)
  | opaqueTok (s : String)
deriving DecidableEq, Repr

/-- `create_jwt_token` (server.py:102-107): payload carries `user_id` and
`exp = now + timedelta(days=7)` (7*86400 = 604800 seconds), signed with
`JWT_SECRET`. -/
def create_jwt_token (secret : String) (user_id : String) (now : Nat) : Token :=
  Token.jwt ⟨user_id, now + 604800⟩ secret

/-- Failure modes of `jwt.decode` as caught at server.py:158. -/
inductive JwtError where
  | expiredSignature
  | invalidToken
deriving DecidableEq, Repr

/-- `jwt.decode(token, JWT_SECRET, algorithms=['HS256'])` (server.py:151):
signature check, then expiry check (PyJWT raises `ExpiredSignatureError`
when `exp <= now`); a non-JWT string raises `InvalidTokenError`. -/
def jwtDecode (secret : String) (t : Token) (now : Nat) : Except JwtError String :=
  match t with
  | Token.jwt p s =>
      if s ≠ secret then Except.error JwtError.invalidToken
      else if p.exp ≤ now then Except.error JwtError.expiredSignature
      else Except.ok p.userId
  | Token.opaqueTok _ => Except.error JwtError.invalidToken

/-- A document of the `users` collection, with the fields written by
`register_user` (server.py:339-353) and `process_session` (server.py:236-248).
Optional fields model fields that may be absent from a document. -/
structure UserDoc where
  id : String
  email : String
  password : Option BcryptHash
  firstName : String
  lastName : String
  displayName : String
  picture : Option String
  isPremium : Bool
  emailVerified : Bool
  verificationCode : Option String
  verificationCodeExpires : Option Nat
  createdAt : Nat
  subscriptionPlan : String
  authProvider : String
deriving DecidableEq, Repr

/-- A document of the `user_sessions` collection (server.py:261-271). -/
structure SessionDoc where
  userId : String
  sessionToken : Token
  expiresAt : Nat
  createdAt : Nat
deriving DecidableEq, Repr

/-- The MongoDB store: the two collections the auth core touches. -/
structure DB where
  users : List UserDoc
  sessions : List SessionDoc
deriving DecidableEq, Repr

/-- `update_one` semantics: MongoDB updates only the first matching
document. -/
def updateFirstUser (l : List UserDoc) (p : UserDoc → Bool)
    (f : UserDoc → UserDoc) : List UserDoc :=
  match l with
  | [] => []
  | u :: rest => if p u then f u :: rest else u :: updateFirstUser rest p f

/-- `update_one` on `user_sessions`: update the first matching document. -/
def updateFirstSession (l : List SessionDoc) (p : SessionDoc → Bool)
    (f : SessionDoc → SessionDoc) : List SessionDoc :=
  match l with
  | [] => []
  | s :: rest => if p s then f s :: rest else s :: updateFirstSession rest p f

/-- `generate_verification_code` (server.py:109-110):
`''.join(secrets.choice(string.digits) for _ in range(6))`; the secure
random source is the explicit choice stream. -/
def generate_verification_code (choice : Nat → Fin 10) : String :=
  String.mk ((List.range 6).map (fun i => Char.ofNat (48 + (choice i).val)))

/-- Request body of `POST /api/users/register` (server.py:60-65).  Pydantic's
`EmailStr` validation preserves the letter case of the local part of the
address, so the email is carried as given. -/
structure UserRegister where
  email : String
  password : String
  firstName : String
  lastName : String
  displayName : Option String
deriving DecidableEq, Repr

/-- Python truthiness of `user_data.display_name or default`
(server.py:345): `None` and `""` both fall back to the default. -/
def pyOr (s : Option String) (default : String) : String :=
  match s with
  | some v => if v == "" then default else v
  | none => default

/-- The user document inserted by `register_user` (server.py:339-353). -/
def registeredDoc (now : Nat) (idSuffix : String) (choice : Nat → Fin 10)
    (data : UserRegister) : UserDoc :=
  { id := "email_" ++ idSuffix
    email := data.email
    password := some (hash_password data.password)
    firstName := data.firstName
    lastName := data.lastName
    displayName := pyOr data.displayName (data.firstName ++ " " ++ data.lastName)
    picture := none
    isPremium := false
    emailVerified := false
    verificationCode := some (generate_verification_code choice)
    verificationCodeExpires := some (now + 3600)
    createdAt := now
    subscriptionPlan := "free"
    authProvider := "email" }

/-- The success message of `register_user` (server.py:362). -/
def registerOkMsg : String :=
  "Registration successful. Please check your email for verification code."

/-- Success payload of `register_user` (server.py:360-365). -/
structure RegisterResponse where
  message : String
  userId : String
  verificationRequired : Bool
deriving DecidableEq, Repr

/-- `register_user` (server.py:322-371): reject if `find_one({"email": ...})`
hits (exact string match — MongoDB equality on the stored value), reject a
password shorter than 8 characters, otherwise insert the new unverified
document.  `idSuffix` stands for `secrets.token_urlsafe(16)`. -/
def register_user (db : DB) (now : Nat) (idSuffix : String)
    (choice : Nat → Fin 10) (data : UserRegister) :
    ApiResult RegisterResponse × DB :=
  match db.users.find? (fun u => u.email == data.email) with
  | some _ => (ApiResult.error 400 "Email already registered", db)
  | none =>
      if data.password.length < 8 then
        (ApiResult.error 400 "Password must be at least 8 characters", db)
      else
        (ApiResult.ok ⟨registerOkMsg, "email_" ++ idSuffix, true⟩,
         { db with users := db.users ++ [registeredDoc now idSuffix choice data] })

/-- The MongoDB filter of `verify_email`'s `find_one` (server.py:377-381):
email equality, `verification_code` equality (misses when the field is
absent) and `verification_code_expires > now` (`$gt` misses when the field
is absent). -/
def verifyFilter (now : Nat) (email code : String) (u : UserDoc) : Bool :=
  u.email == email && u.verificationCode == some code &&
    (match u.verificationCodeExpires with
     | some e => decide (now < e)
     | none => false)

/-- The field paths of the `$set` document in `verify_email`'s `update_one`
call (server.py:387-398): the `$unset` clause is nested *inside* `$set`,
so `"$unset"` itself occurs as a field path. -/
def verifyEmailSetPaths : List String := ["email_verified", "$unset"]

/-- MongoDB rejects a `$set` whose field paths are dollar-prefixed, i.e.
whose first character is `'$'` (`update_one` raises `OperationFailure`,
caught by the handler's generic `except Exception`). -/
def mongoSetPathsAccepted (paths : List String) : Bool :=
  paths.all (fun p => !(p.data.head? == some '$'))

/-- `verify_email` (server.py:373-413).  When the filter matches, the
handler issues the `update_one` with the malformed `$set` document; MongoDB
rejects it, the exception falls into the generic handler and a 500 is
returned with the store unchanged.  (The `ok` branch models what the
handler would return had the update document been accepted: mark verified —
the nested `$unset` would still not remove the code fields.) -/
def verify_email (secret : String) (db : DB) (now : Nat)
    (email code : String) : ApiResult Token × DB :=
  match db.users.find? (verifyFilter now email code) with
  | none => (ApiResult.error 400 "Invalid or expired verification code", db)
  | some u =>
      if mongoSetPathsAccepted verifyEmailSetPaths then
        (ApiResult.ok (create_jwt_token secret u.id now),
         { db with users := (updateFirstUser db.users (fun v => v.id == u.id)
             (fun v => { v with emailVerified := true })) })
      else
        (ApiResult.error 500 "Email verification failed", db)

/-- Success payload of `login_user` (server.py:434-444). -/
structure LoginResponse where
  token : Token
  userId : String
  email : String
  displayName : String
  isPremium : Bool
deriving DecidableEq, Repr

/-- `login_user` (server.py:415-450): absent account, non-`email` auth
provider and password mismatch all raise the same
`HTTPException(401, "Invalid credentials")`; an unverified account with a
correct password raises `HTTPException(400, "Please verify your email
first")`.  A missing `password` field would raise `KeyError`, caught into
the generic 500. -/
def login_user (secret : String) (db : DB) (now : Nat)
    (email password : String) : ApiResult LoginResponse :=
  match db.users.find? (fun u => u.email == email) with
  | none => ApiResult.error 401 "Invalid credentials"
  | some u =>
      if u.authProvider ≠ "email" then ApiResult.error 401 "Invalid credentials"
      else
        match u.password with
        | none => ApiResult.error 500 "Login failed"
        | some h =>
            if ¬ verify_password password h then
              ApiResult.error 401 "Invalid credentials"
            else if ¬ u.emailVerified then
              ApiResult.error 400 "Please verify your email first"
            else
              ApiResult.ok ⟨create_jwt_token secret u.id now, u.id, u.email,
                u.displayName, u.isPremium⟩

/-- Identity data returned by the external provider's session-data endpoint
(server.py:223-232); `process_session` is modelled from this point on, the
HTTP exchange itself being an external collaborator. -/
structure SessionData where
  id : String
  email : String
  name : String
  picture : Option String
  sessionToken : Token
deriving DecidableEq, Repr

/-- Accumulating splitter behind `pySplit`: `acc` holds the characters of
the word currently being read, in reverse. -/
def pySplitAux : List Char → List Char → List String
  | [], acc => if acc.isEmpty then [] else [String.mk acc.reverse]
  | c :: cs, acc =>
      if c.isWhitespace then
        if acc.isEmpty then pySplitAux cs []
        else String.mk acc.reverse :: pySplitAux cs []
      else pySplitAux cs (c :: acc)

/-- Python `str.split()` with no argument: split on runs of whitespace,
dropping empty pieces. -/
def pySplit (s : String) : List String :=
  pySplitAux s.data []

/-- Success payload of `process_session` (server.py:284-292). -/
structure SessionResponse where
  userId : String
  email : String
  name : String
  picture : Option String
deriving DecidableEq, Repr

/-- The user document `process_session` builds (server.py:236-248); callable
only when `name` splits into at least one word or is empty. -/
def googleUserDoc (now : Nat) (d : SessionData) (firstWord : String)
    (restWords : List String) : UserDoc :=
  { id := "google_" ++ d.id
    email := d.email
    password := none
    firstName := if d.name == "" then "User" else firstWord
    lastName := if (pySplit d.name).length > 1 then String.intercalate " " restWords else ""
    displayName := d.name
    picture := d.picture
    isPremium := false
    emailVerified := true
    verificationCode := none
    verificationCodeExpires := none
    createdAt := now
    subscriptionPlan := "free"
    authProvider := "google" }

/-- The store effect of `process_session` once the user document is built
(server.py:250-271): a `$setOnInsert` upsert of the user keyed on `_id`
(insert only when absent, first match otherwise untouched) and a `$set`
upsert of the session keyed on `user_id`. -/
def processInsert (db : DB) (now : Nat) (d : SessionData) (doc : UserDoc) :
    ApiResult SessionResponse × DB :=
  (ApiResult.ok ⟨"google_" ++ d.id, d.email, d.name, d.picture⟩,
   { users :=
       match db.users.find? (fun u => u.id == ("google_" ++ d.id)) with
       | some _ => db.users
       | none => db.users ++ [doc]
     sessions :=
       match db.sessions.find? (fun s => s.userId == ("google_" ++ d.id)) with
       | some _ =>
           updateFirstSession db.sessions (fun s => s.userId == ("google_" ++ d.id))
             (fun s => { s with sessionToken := d.sessionToken,
                                expiresAt := now + 604800, createdAt := now })
       | none => db.sessions ++ [⟨"google_" ++ d.id, d.sessionToken, now + 604800, now⟩] })

/-- `process_session` (server.py:212-296), from the point where the external
exchange has succeeded and returned `d`.  A non-empty all-whitespace `name`
makes `session_data["name"].split()[0]` raise `IndexError`, caught into the
generic 500. -/
def process_session (db : DB) (now : Nat) (d : SessionData) :
    ApiResult SessionResponse × DB :=
  match pySplit d.name with
  | [] =>
      if d.name == "" then
        processInsert db now d (googleUserDoc now d "" [])
      else
        (ApiResult.error 500 "Session processing failed", db)
  | w :: rest =>
      processInsert db now d (googleUserDoc now d w rest)

/-- Python truthiness of a token string at server.py:134 and 137: `None`
and the empty string are falsy. -/
def tokenFalsy : Token → Bool
  | Token.jwt _ _ => false
  | Token.opaqueTok s => s == ""

/-- `get_current_user` (server.py:123-161): take the cookie value, fall back
to the Authorization header only when the cookie is falsy; then try an
opaque-session lookup (success requires `expires_at > now` and a matching
user), and otherwise fall through to `jwt.decode` on the very same token;
every failure path returns `None`. -/
def get_current_user (db : DB) (secret : String) (now : Nat)
    (credentials : Option Token) (session_token : Option Token) :
    Option UserDoc :=
  let token :=
    match session_token with
    | some t => if tokenFalsy t then credentials else some t
    | none => credentials
  match token with
  | none => none
  | some t =>
      if tokenFalsy t then none
      else
        let viaSession :=
          match db.sessions.find? (fun s => s.sessionToken == t) with
          | some sess =>
              if now < sess.expiresAt then
                db.users.find? (fun u => u.id == sess.userId)
              else none
          | none => none
        match viaSession with
        | some u => some u
        | none =>
            match jwtDecode secret t now with
            | Except.ok uid => db.users.find? (fun u => u.id == uid)
            | Except.error _ => none

/-- Modelled from the spec: the repository has no `resend_verification`
handler under `src/` (only §4.5 and §6 of the spec describe
`POST /users/resend-verification`).  Per the spec: fail `not_found` when no
unverified account carries the email; otherwise issue a fresh code with the
§4.2 overwrite semantics (new code, expiry = now + 1 hour, replacing any
pending code on that account) and redispatch the email (the outbound send
is an external collaborator and has no effect on the store). -/
def resend_verification (db : DB) (now : Nat) (choice : Nat → Fin 10)
    (email : String) : ApiResult String × DB :=
  match db.users.find? (fun u => u.email == email && !u.emailVerified) with
  | none => (ApiResult.error 404 "No unverified account with this email", db)
  | some _ =>
      (ApiResult.ok "Verification code resent",
       { db with users := (updateFirstUser db.users
           (fun u => u.email == email && !u.emailVerified)
           (fun u => { u with
             verificationCode := some (generate_verification_code choice),
             verificationCodeExpires := some (now + 3600) })) })

/-! Concrete store states used by witnesses and counterexamples. -/

/-- A freshly registered, unverified account with a live code "123456"
expiring at time 3600. -/
def bobDoc : UserDoc :=
  { id := "email_abc"
    email := "bob@x.com"
    password := some (hash_password "password123")
    firstName := "Bob"
    lastName := "B"
    displayName := "Bob B"
    picture := none
    isPremium := false
    emailVerified := false
    verificationCode := some "123456"
    verificationCodeExpires := some 3600
    createdAt := 0
    subscriptionPlan := "free"
    authProvider := "email" }

/-- Store holding only the unverified account. -/
def bobDB : DB := ⟨[bobDoc], []⟩

/-- The same account with an already-expired code (expiry 50). -/
def bobExpiredDoc : UserDoc := { bobDoc with verificationCodeExpires := some 50 }

/-- Store holding only the expired-code account. -/
def bobExpiredDB : DB := ⟨[bobExpiredDoc], []⟩

/-- The account once verified: flag set, no pending code. -/
def bobVerifiedDoc : UserDoc :=
  { bobDoc with emailVerified := true, verificationCode := none,
                verificationCodeExpires := none }

/-- Store holding only the verified account. -/
def verifiedDB : DB := ⟨[bobVerifiedDoc], []⟩

/-- Store holding a single opaque session that expired at time 10. -/
def staleSessionDB : DB := ⟨[], [⟨"u1", Token.opaqueTok "tok", 10, 0⟩]⟩

/-- A degenerate choice stream: always the digit 0. -/
def zeroChoice : Nat → Fin 10 := fun _ => 0

/-- Registration request for `Bob@x.com` (upper-case local part). -/
def c8DataUpper : UserRegister := ⟨"Bob@x.com", "password123", "Bob", "B", none⟩

/-- Registration request for `bob@x.com` (lower-case local part). -/
def c8DataLower : UserRegister := ⟨"bob@x.com", "password123", "Bobby", "B", none⟩

/-- Registration request used by the C4 witness. -/
def c4Data : UserRegister := ⟨"bob@x.com", "password123", "Bob", "B", none⟩

/-- External identity used by the C7 witness. -/
def c7Data : SessionData := ⟨"gid", "g@x.com", "Alice Smith", none, Token.opaqueTok "tok"⟩

/-! Helper lemmas. -/

theorem updateFirstUser_length (l : List UserDoc) (p : UserDoc → Bool)
    (f : UserDoc → UserDoc) : (updateFirstUser l p f).length = l.length := by
  induction l with
  | nil => rfl
  | cons u rest ih =>
      simp only [updateFirstUser]
      by_cases h : p u <;> simp [h, ih]

theorem updateFirstUser_mem (l : List UserDoc) (p : UserDoc → Bool)
    (f : UserDoc → UserDoc) (u : UserDoc) (hf : l.find? p = some u) :
    f u ∈ updateFirstUser l p f := by
  induction l with
  | nil => simp at hf
  | cons v rest ih =>
      by_cases h : p v
      · rw [List.find?_cons_of_pos _ h] at hf
        obtain rfl : v = u := by injection hf
        simp [updateFirstUser, h]
      · rw [List.find?_cons_of_neg _ h] at hf
        simp only [updateFirstUser, h, if_neg]
        exact List.mem_cons_of_mem v (ih hf)

theorem generate_code_length (choice : Nat → Fin 10) :
    (generate_verification_code choice).length = 6 := by
  simp [generate_verification_code, String.length]

theorem generate_code_digits (choice : Nat → Fin 10) :
    ((generate_verification_code choice).data.all Char.isDigit) = true := by
  simp only [generate_verification_code, List.all_eq_true, List.mem_map,
    List.mem_range]
  rintro c ⟨i, -, rfl⟩
  have hd : ∀ d : Fin 10, (Char.ofNat (48 + d.val)).isDigit = true := by decide
  exact hd (choice i)

/-! Claim theorems. -/

/-- C1 (code bug): the claim says a first `verify_email` call with a live
matching code succeeds and, having deleted the code, a second identical call
fails.  In the code the `$unset` clause is nested inside `$set`
(server.py:390-396); MongoDB rejects the dollar-prefixed field path, the
exception falls into the generic handler, and *every* call — first and
second alike — returns 500 "Email verification failed" with the store (and
the stored code) unchanged. -/
theorem C1_verify_email_update_rejected :
    verify_email "sek" bobDB 100 "bob@x.com" "123456"
      = (ApiResult.error 500 "Email verification failed", bobDB) ∧
    verify_email "sek" (verify_email "sek" bobDB 100 "bob@x.com" "123456").2
        200 "bob@x.com" "123456"
      = (ApiResult.error 500 "Email verification failed", bobDB) ∧
    (verify_email "sek" bobDB 100 "bob@x.com" "123456").2.users.map
        (fun u => u.verificationCode) = [some "123456"] := by
  refine ⟨?_, ?_, ?_⟩ <;> decide

/-- C3 counterexample: validating the correct code after its expiry does not
produce a distinct `expired` outcome — it returns the very same
`400 "Invalid or expired verification code"` error that a wrong code on a
live record produces, so the two cases are indistinguishable. -/
theorem C3_expired_error_not_distinct :
    (verify_email "sek" bobExpiredDB 100 "bob@x.com" "123456").1
      = ApiResult.error 400 "Invalid or expired verification code" ∧
    (verify_email "sek" bobExpiredDB 100 "bob@x.com" "123456").1
      = (verify_email "sek" bobDB 100 "bob@x.com" "000000").1 := by
  exact ⟨rfl, rfl⟩

/-- C3 (amended): when every record matching the email and code has its
expiry at or before `now` (expiry is checked strictly: success needs
`expiry > now`), `verify_email` returns the merged
`400 "Invalid or expired verification code"` error — shared with the
wrong-code case — and never reports success; the store is unchanged. -/
theorem C3_expired_never_verified (secret : String) (db : DB) (now : Nat)
    (email code : String)
    (h : ∀ u ∈ db.users, u.email = email → u.verificationCode = some code →
         ∀ e, u.verificationCodeExpires = some e → e ≤ now) :
    verify_email secret db now email code
      = (ApiResult.error 400 "Invalid or expired verification code", db) := by
  have hfind : db.users.find? (verifyFilter now email code) = none := by
    rw [List.find?_eq_none]
    intro u hu hfilt
    simp only [verifyFilter, Bool.and_eq_true, beq_iff_eq] at hfilt
    obtain ⟨⟨he, hc⟩, hexp⟩ := hfilt
    cases hE : u.verificationCodeExpires with
    | none => rw [hE] at hexp; simp at hexp
    | some e =>
        rw [hE] at hexp
        simp only [decide_eq_true_eq] at hexp
        have := h u hu he hc e hE
        omega
  simp [verify_email, hfind]

/-- C3 witness: the amended theorem applied to the concrete expired-code
store. -/
theorem C3_expired_never_verified_witness :
    verify_email "sek" bobExpiredDB 100 "bob@x.com" "123456"
      = (ApiResult.error 400 "Invalid or expired verification code",
         bobExpiredDB) := by
  apply C3_expired_never_verified
  intro u hu he hc e hE
  have hu' : u = bobExpiredDoc := by simpa [bobExpiredDB] using hu
  subst hu'
  have he' : e = 50 := by simpa [bobExpiredDoc, bobDoc] using hE.symm
  omega

/-- C5: bearer tokens round-trip — decoding `create_jwt_token secret id t0`
under the same secret yields `id` strictly before `t0 + 7` days and the
`expired` outcome strictly after. -/
theorem C5_bearer_roundtrip (secret user_id : String) (t0 t1 : Nat) :
    (t1 < t0 + 604800 →
      jwtDecode secret (create_jwt_token secret user_id t0) t1
        = Except.ok user_id) ∧
    (t0 + 604800 < t1 →
      jwtDecode secret (create_jwt_token secret user_id t0) t1
        = Except.error JwtError.expiredSignature) := by
  constructor
  · intro h
    simp only [create_jwt_token, jwtDecode]
    rw [if_neg (by simp), if_neg (by omega)]
  · intro h
    simp only [create_jwt_token, jwtDecode]
    rw [if_neg (by simp), if_pos (by omega)]

/-- C5 witness: the round-trip at a concrete identifier and concrete clock
readings one second inside and one second past the 7-day window. -/
theorem C5_bearer_roundtrip_witness :
    jwtDecode "sek" (create_jwt_token "sek" "u1" 0) 604799 = Except.ok "u1" ∧
    jwtDecode "sek" (create_jwt_token "sek" "u1" 0) 604801
      = Except.error JwtError.expiredSignature :=
  ⟨(C5_bearer_roundtrip "sek" "u1" 0 604799).1 (by decide),
   (C5_bearer_roundtrip "sek" "u1" 0 604801).2 (by decide)⟩

/-- C2: login failure is enumeration-resistant — a login against an absent
email and a login against an existing account with the wrong password (or
an account of a non-`email` auth provider) both return exactly
`401 "Invalid credentials"`, hence identical results. -/
theorem C2_login_enumeration_resistant (db : DB) (secret : String) (now : Nat)
    (e1 p1 e2 p2 : String) (u : UserDoc)
    (habsent : ∀ v ∈ db.users, v.email ≠ e1)
    (hfound : db.users.find? (fun v => v.email == e2) = some u)
    (hbad : u.authProvider ≠ "email" ∨
      ∃ h, u.password = some h ∧ verify_password p2 h = false) :
    login_user secret db now e1 p1 = ApiResult.error 401 "Invalid credentials" ∧
    login_user secret db now e2 p2 = ApiResult.error 401 "Invalid credentials" ∧
    login_user secret db now e1 p1 = login_user secret db now e2 p2 := by
  have h1 : db.users.find? (fun v => v.email == e1) = none := by
    rw [List.find?_eq_none]
    intro v hv
    simpa using habsent v hv
  have hr1 : login_user secret db now e1 p1
      = ApiResult.error 401 "Invalid credentials" := by
    simp [login_user, h1]
  have hr2 : login_user secret db now e2 p2
      = ApiResult.error 401 "Invalid credentials" := by
    rcases hbad with hprov | ⟨h, hp, hv⟩
    · simp [login_user, hfound, hprov]
    · by_cases hprov : u.authProvider = "email"
      · simp [login_user, hfound, hprov, hp, hv]
      · simp [login_user, hfound, hprov]
  exact ⟨hr1, hr2, hr1.trans hr2.symm⟩

/-- C2 witness: `login("nouser@example.com", "x")` against a store holding
only the verified `bob@x.com` account, versus
`login("bob@x.com", "wrongpass")`. -/
theorem C2_login_enumeration_resistant_witness :
    login_user "sek" verifiedDB 0 "nouser@example.com" "x"
      = ApiResult.error 401 "Invalid credentials" ∧
    login_user "sek" verifiedDB 0 "bob@x.com" "wrongpass"
      = ApiResult.error 401 "Invalid credentials" ∧
    login_user "sek" verifiedDB 0 "nouser@example.com" "x"
      = login_user "sek" verifiedDB 0 "bob@x.com" "wrongpass" :=
  C2_login_enumeration_resistant verifiedDB "sek" 0 "nouser@example.com" "x"
    "bob@x.com" "wrongpass" bobVerifiedDoc (by decide) (by decide)
    (Or.inr ⟨hash_password "password123", rfl, by decide⟩)

/-- C4: a valid registration (fresh email, password of length ≥ 8) stores a
6-digit code with expiry `now + 3600` on an unverified account, and — on the
resulting store — every login with the correct password fails with
`400 "Please verify your email first"` (the `verification_required`
outcome). -/
theorem C4_register_unverified_until_consumed (db : DB) (now : Nat)
    (idSuffix : String) (choice : Nat → Fin 10) (data : UserRegister)
    (hfresh : ∀ v ∈ db.users, v.email ≠ data.email)
    (hlen : 8 ≤ data.password.length) :
    ∃ db',
      register_user db now idSuffix choice data
        = (ApiResult.ok ⟨registerOkMsg, "email_" ++ idSuffix, true⟩, db') ∧
      db'.users.find? (fun u => u.email == data.email)
        = some (registeredDoc now idSuffix choice data) ∧
      (registeredDoc now idSuffix choice data).verificationCode
        = some (generate_verification_code choice) ∧
      (generate_verification_code choice).length = 6 ∧
      ((generate_verification_code choice).data.all Char.isDigit) = true ∧
      (registeredDoc now idSuffix choice data).verificationCodeExpires
        = some (now + 3600) ∧
      (registeredDoc now idSuffix choice data).emailVerified = false ∧
      ∀ secret t, login_user secret db' t data.email data.password
          = ApiResult.error 400 "Please verify your email first" := by
  have hnone : db.users.find? (fun v => v.email == data.email) = none := by
    rw [List.find?_eq_none]
    intro v hv
    simpa using hfresh v hv
  refine ⟨{ db with users := db.users ++ [registeredDoc now idSuffix choice data] },
    ?_, ?_, rfl, generate_code_length choice, generate_code_digits choice,
    rfl, rfl, ?_⟩
  · simp [register_user, hnone, Nat.not_lt.mpr hlen]
  · rw [List.find?_append, hnone]
    simp [registeredDoc]
  · intro secret t
    simp [login_user, List.find?_append, hnone, registeredDoc, hash_password,
      verify_password]

/-- C4 witness: the theorem at the empty store with a concrete registration
request. -/
theorem C4_register_unverified_until_consumed_witness :
    ∃ db',
      register_user ⟨[], []⟩ 0 "abc" zeroChoice c4Data
        = (ApiResult.ok ⟨registerOkMsg, "email_abc", true⟩, db') ∧
      db'.users.find? (fun u => u.email == c4Data.email)
        = some (registeredDoc 0 "abc" zeroChoice c4Data) ∧
      (registeredDoc 0 "abc" zeroChoice c4Data).verificationCode
        = some (generate_verification_code zeroChoice) ∧
      (generate_verification_code zeroChoice).length = 6 ∧
      ((generate_verification_code zeroChoice).data.all Char.isDigit) = true ∧
      (registeredDoc 0 "abc" zeroChoice c4Data).verificationCodeExpires
        = some 3600 ∧
      (registeredDoc 0 "abc" zeroChoice c4Data).emailVerified = false ∧
      ∀ secret t, login_user secret db' t c4Data.email c4Data.password
          = ApiResult.error 400 "Please verify your email first" :=
  C4_register_unverified_until_consumed ⟨[], []⟩ 0 "abc" zeroChoice c4Data
    (by simp) (by decide)

/-- C6: an opaque session token whose stored `expires_at` is not after the
current time resolves to no account, even though the session record is
still present in the store (`find_one` still returns it). -/
theorem C6_expired_session_unauthenticated (db : DB) (secret : String)
    (now : Nat) (s : String) (sess : SessionDoc)
    (hfind : db.sessions.find? (fun x => x.sessionToken == Token.opaqueTok s)
      = some sess)
    (hexp : sess.expiresAt ≤ now) :
    get_current_user db secret now none (some (Token.opaqueTok s)) = none := by
  have hnlt : ¬ now < sess.expiresAt := by omega
  by_cases hs : s = ""
  · subst hs
    simp [get_current_user, tokenFalsy]
  · simp [get_current_user, tokenFalsy, hs, hfind, hnlt, jwtDecode]

/-- C6 witness: a stale opaque session (`expires_at = 10`) presented at time
100. -/
theorem C6_expired_session_unauthenticated_witness :
    get_current_user staleSessionDB "sek" 100 none (some (Token.opaqueTok "tok"))
      = none :=
  C6_expired_session_unauthenticated staleSessionDB "sek" 100 "tok"
    ⟨"u1", Token.opaqueTok "tok", 10, 0⟩ (by decide) (by decide)

/-! Lemmas about the OAuth upsert. -/

theorem processInsert_users_find (db : DB) (now : Nat) (d : SessionData)
    (doc : UserDoc) (hid : doc.id = "google_" ++ d.id) :
    ∃ u, (processInsert db now d doc).2.users.find?
        (fun v => v.id == ("google_" ++ d.id)) = some u := by
  simp only [processInsert]
  cases hf : db.users.find? (fun v => v.id == ("google_" ++ d.id)) with
  | some u => exact ⟨u, by simp [hf]⟩
  | none =>
      refine ⟨doc, ?_⟩
      simp [List.find?_append, hf, hid]

theorem processInsert_users_unchanged (db : DB) (now : Nat) (d : SessionData)
    (doc : UserDoc) (u : UserDoc)
    (hf : db.users.find? (fun v => v.id == ("google_" ++ d.id)) = some u) :
    (processInsert db now d doc).2.users = db.users := by
  simp [processInsert, hf]

/-- C7: the OAuth exchange is idempotent on accounts — with a well-formed
display name, each exchange succeeds with the provider-namespaced
identifier `"google_" ++ provider_user_id`, and running the exchange a
second time with the same external identity returns the same payload and
leaves the `users` collection exactly as the first call left it (upsert,
no duplicate). -/
theorem C7_oauth_exchange_idempotent (db : DB) (t1 t2 : Nat) (d : SessionData)
    (hname : d.name = "" ∨ pySplit d.name ≠ []) :
    ∃ r db1,
      process_session db t1 d = (ApiResult.ok r, db1) ∧
      r.userId = "google_" ++ d.id ∧
      (process_session db1 t2 d).1 = ApiResult.ok r ∧
      (process_session db1 t2 d).2.users = db1.users := by
  have reduce : ∀ (db0 : DB) (t : Nat), ∃ doc : UserDoc,
      doc.id = "google_" ++ d.id ∧
      process_session db0 t d = processInsert db0 t d doc := by
    intro db0 t
    rcases hname with h | h
    · have hsp0 : pySplit "" = [] := rfl
      refine ⟨googleUserDoc t d "" [], rfl, ?_⟩
      simp [process_session, h, hsp0]
    · obtain ⟨w, rest, hsp⟩ := List.exists_cons_of_ne_nil h
      refine ⟨googleUserDoc t d w rest, rfl, ?_⟩
      simp [process_session, hsp]
  obtain ⟨doc1, hid1, hred1⟩ := reduce db t1
  obtain ⟨doc2, hid2, hred2⟩ := reduce (processInsert db t1 d doc1).2 t2
  refine ⟨⟨"google_" ++ d.id, d.email, d.name, d.picture⟩,
    (processInsert db t1 d doc1).2, ?_, rfl, ?_, ?_⟩
  · rw [hred1]
    rfl
  · rw [hred2]
    rfl
  · rw [hred2]
    obtain ⟨u, hu⟩ := processInsert_users_find db t1 d doc1 hid1
    exact processInsert_users_unchanged _ t2 d doc2 u hu

/-- C7 witness: the exchange run twice from the empty store for a concrete
Google identity. -/
theorem C7_oauth_exchange_idempotent_witness :
    ∃ r db1,
      process_session ⟨[], []⟩ 0 c7Data = (ApiResult.ok r, db1) ∧
      r.userId = "google_" ++ c7Data.id ∧
      (process_session db1 5 c7Data).1 = ApiResult.ok r ∧
      (process_session db1 5 c7Data).2.users = db1.users :=
  C7_oauth_exchange_idempotent ⟨[], []⟩ 0 5 c7Data (Or.inr (by decide))

/-- C8 counterexample: registering `Bob@x.com` and then `bob@x.com` — two
emails differing only in letter case — both succeed, leaving a reachable
store whose two accounts have case-insensitively equal emails; the second
registration is not rejected with a conflict, so email uniqueness is not
case-normalized. -/
theorem C8_case_normalization_fails :
    (register_user ⟨[], []⟩ 0 "aaa" zeroChoice c8DataUpper).1
      = ApiResult.ok ⟨registerOkMsg, "email_aaa", true⟩ ∧
    (register_user (register_user ⟨[], []⟩ 0 "aaa" zeroChoice c8DataUpper).2
        0 "bbb" zeroChoice c8DataLower).1
      = ApiResult.ok ⟨registerOkMsg, "email_bbb", true⟩ ∧
    ((register_user (register_user ⟨[], []⟩ 0 "aaa" zeroChoice c8DataUpper).2
        0 "bbb" zeroChoice c8DataLower).2.users.map (fun u => u.email))
      = ["Bob@x.com", "bob@x.com"] ∧
    "Bob@x.com".data.map Char.toLower = "bob@x.com".data.map Char.toLower ∧
    "Bob@x.com" ≠ "bob@x.com" := by
  refine ⟨rfl, rfl, rfl, by decide, by decide⟩

/-- C8 (amended): email uniqueness is enforced by exact string equality
only — `register_user` rejects with the conflict error exactly when some
stored account carries the identical email string, and otherwise (fresh
exact email, password long enough) inserts a new account; emails differing
only in letter case are treated as distinct. -/
theorem C8_exact_email_uniqueness (db : DB) (now : Nat) (idSuffix : String)
    (choice : Nat → Fin 10) (data : UserRegister) :
    ((∃ u ∈ db.users, u.email = data.email) →
      register_user db now idSuffix choice data
        = (ApiResult.error 400 "Email already registered", db)) ∧
    ((∀ u ∈ db.users, u.email ≠ data.email) → 8 ≤ data.password.length →
      (register_user db now idSuffix choice data).2.users
        = db.users ++ [registeredDoc now idSuffix choice data]) := by
  constructor
  · rintro ⟨u, hu, he⟩
    cases hf : db.users.find? (fun v => v.email == data.email) with
    | none =>
        rw [List.find?_eq_none] at hf
        exact absurd (by simp [he]) (hf u hu)
    | some v => simp [register_user, hf]
  · intro habs hlen
    have hnone : db.users.find? (fun v => v.email == data.email) = none := by
      rw [List.find?_eq_none]
      intro v hv
      simpa using habs v hv
    simp [register_user, hnone, Nat.not_lt.mpr hlen]

/-- C8 witness: both halves of the amended theorem at concrete stores — a
duplicate exact email is rejected, and a fresh email is inserted. -/
theorem C8_exact_email_uniqueness_witness :
    register_user bobDB 0 "zzz" zeroChoice c4Data
      = (ApiResult.error 400 "Email already registered", bobDB) ∧
    (register_user ⟨[], []⟩ 0 "zzz" zeroChoice c4Data).2.users
      = [] ++ [registeredDoc 0 "zzz" zeroChoice c4Data] :=
  ⟨(C8_exact_email_uniqueness bobDB 0 "zzz" zeroChoice c4Data).1
      ⟨bobDoc, by decide, by decide⟩,
   (C8_exact_email_uniqueness ⟨[], []⟩ 0 "zzz" zeroChoice c4Data).2
      (by simp) (by decide)⟩

/-- C9 (modelled from the spec, no such handler exists under `src/`):
`resend_verification` fails `not_found` exactly when no unverified account
carries the email; otherwise it succeeds, the account's pending code is
overwritten by the freshly generated one with expiry `now + 3600`, and no
record is added (at most one live code per email — overwrite, not
accumulation). -/
theorem C9_resend_verification_semantics (db : DB) (now : Nat)
    (choice : Nat → Fin 10) (email : String) :
    (db.users.find? (fun u => u.email == email && !u.emailVerified) = none →
      resend_verification db now choice email
        = (ApiResult.error 404 "No unverified account with this email", db)) ∧
    (∀ u, db.users.find? (fun u => u.email == email && !u.emailVerified)
        = some u →
      ∃ db', resend_verification db now choice email
          = (ApiResult.ok "Verification code resent", db') ∧
        ({ u with verificationCode := some (generate_verification_code choice),
                  verificationCodeExpires := some (now + 3600) } : UserDoc)
          ∈ db'.users ∧
        db'.users.length = db.users.length) := by
  constructor
  · intro hnone
    simp [resend_verification, hnone]
  · intro u hu
    refine ⟨{ db with users := (updateFirstUser db.users
        (fun v => v.email == email && !v.emailVerified)
        (fun v => { v with
          verificationCode := some (generate_verification_code choice),
          verificationCodeExpires := some (now + 3600) })) }, ?_, ?_, ?_⟩
    · simp [resend_verification, hu]
    · exact updateFirstUser_mem _ _ _ u hu
    · exact updateFirstUser_length _ _ _

/-- C9 witness: both halves at concrete stores — a store with only a
verified account yields `not_found`, and the unverified `bob@x.com` account
gets its code overwritten in place. -/
theorem C9_resend_verification_semantics_witness :
    resend_verification verifiedDB 7000 zeroChoice "bob@x.com"
      = (ApiResult.error 404 "No unverified account with this email",
         verifiedDB) ∧
    ∃ db', resend_verification bobDB 7000 zeroChoice "bob@x.com"
        = (ApiResult.ok "Verification code resent", db') ∧
      ({ bobDoc with
          verificationCode := some (generate_verification_code zeroChoice),
          verificationCodeExpires := some 10600 } : UserDoc) ∈ db'.users ∧
      db'.users.length = bobDB.users.length :=
  ⟨(C9_resend_verification_semantics verifiedDB 7000 zeroChoice "bob@x.com").1
      (by decide),
   (C9_resend_verification_semantics bobDB 7000 zeroChoice "bob@x.com").2
      bobDoc (by decide)⟩

/-- C10 counterexample: a request carrying a `session_token` cookie with the
(invalid) empty value together with a valid bearer token in the
Authorization header resolves to the bearer's account, not to
unauthenticated — the header *is* consulted when the cookie value is falsy,
refuting the claim as universally stated. -/
theorem C10_header_used_when_cookie_empty :
    get_current_user ⟨[bobVerifiedDoc], []⟩ "sek" 10
      (some (create_jwt_token "sek" "email_abc" 0)) (some (Token.opaqueTok ""))
      = some bobVerifiedDoc := by
  decide

/-- C10 (amended): when the `session_token` cookie is non-empty, credential
resolution depends only on the cookie — the Authorization header is never
consulted — and in particular a non-empty opaque cookie with no matching
session record resolves to unauthenticated even alongside a valid bearer
header; an *empty* cookie value instead falls back to the header (Python
truthiness at server.py:134). -/
theorem C10_nonempty_cookie_only (db : DB) (secret : String) (now : Nat)
    (c1 c2 : Option Token) (tok : Token)
    (hne : tokenFalsy tok = false) :
    (get_current_user db secret now c1 (some tok)
      = get_current_user db secret now c2 (some tok)) ∧
    (∀ s, tok = Token.opaqueTok s →
      db.sessions.find? (fun x => x.sessionToken == tok) = none →
      get_current_user db secret now c1 (some tok) = none) := by
  constructor
  · simp [get_current_user, hne]
  · rintro s rfl hnos
    simp [get_current_user, hne, hnos, jwtDecode]

/-- C10 witness: the amended theorem at a concrete store — a stale opaque
cookie `"zz"` beside a valid bearer header still resolves to
unauthenticated, identically to a request with no header at all. -/
theorem C10_nonempty_cookie_only_witness :
    (get_current_user ⟨[bobVerifiedDoc], []⟩ "sek" 0
        (some (create_jwt_token "sek" "email_abc" 0)) (some (Token.opaqueTok "zz"))
      = get_current_user ⟨[bobVerifiedDoc], []⟩ "sek" 0 none
        (some (Token.opaqueTok "zz"))) ∧
    get_current_user ⟨[bobVerifiedDoc], []⟩ "sek" 0
        (some (create_jwt_token "sek" "email_abc" 0)) (some (Token.opaqueTok "zz"))
      = none :=
  ⟨(C10_nonempty_cookie_only ⟨[bobVerifiedDoc], []⟩ "sek" 0
      (some (create_jwt_token "sek" "email_abc" 0)) none (Token.opaqueTok "zz")
      (by decide)).1,
   (C10_nonempty_cookie_only ⟨[bobVerifiedDoc], []⟩ "sek" 0
      (some (create_jwt_token "sek" "email_abc" 0)) none (Token.opaqueTok "zz")
      (by decide)).2 "zz" rfl (by decide)⟩
